import Mathlib

/-!
Shallow embedding of the client-side synchronization and concurrency-tracking
layer of the webScrapper frontend:

* the artifact records and the HTTP service surface of
  `src/frontend/src/services/api.ts`;
* the per-item download in-flight tracking (`downloading` set) and the
  download handlers of `src/frontend/src/components/PDFManager.tsx` and
  `src/frontend/src/components/VideoManager.tsx`;
* the list-fetch logic (`fetchPDFs` / `fetchVideos`) of the same components;
* the submission flow (`handleSubmit`) of `ScraperInterface.tsx`;
* the delayed refresh trigger (`handleScrapeStart`) and timer lifecycle of
  the `App` component (`src/unnamed/part_000`);
* the list rendering of both manager components.

Network calls are modelled by an explicit outcome parameter (`fetchOk`,
`transportOk`, or an `Except` result): the remote service is an external
collaborator, so a call's success or failure is an input of the model.
React state cells (`useState`) are passed explicitly as state arguments and
returned in result records.
-/

namespace WebScrapper

/-- A media artifact as declared by the `Video` interface in `api.ts`.
Presentation-only fields that no verified behaviour reads
(`duration`, `file_size`, `download_date`, `meta`) are elided. -/
structure Video where
  id : String
  url : String
  title : Option String
  filename : Option String
  minio_object_name : Option String
deriving DecidableEq

/-- A document artifact as declared by the `PDF` interface in `api.ts`.
Presentation-only fields (`file_size`, `download_date`, `meta`) are elided. -/
structure PDF where
  id : String
  url : String
  filename : Option String
  minio_object_name : Option String
deriving DecidableEq

/-- The request body posted to `/scrape`, the `ScrapeRequest` interface of
`api.ts`. -/
structure ScrapeRequest where
  urls : List String
  keywords : List String
deriving DecidableEq

/-- JavaScript truthiness of an optional string field: both `undefined`
(here `none`) and the empty string are falsy. -/
def truthy : Option String → Bool
  | none => false
  | some s => s != ""

/-- JavaScript `a || b` on two strings: the empty string is falsy. -/
def jsOr (a b : String) : String := if a == "" then b else a

/-- JavaScript `a || b` where `a` is a possibly-undefined string field. -/
def jsOrOpt (a : Option String) (b : String) : String :=
  match a with
  | none => b
  | some s => jsOr s b

/-- JavaScript `String.prototype.trim`: strip whitespace from both ends.
Implemented over the character list of the string so that it is
kernel-computable. -/
def jsTrim (s : String) : String :=
  ⟨(((s.data.dropWhile Char.isWhitespace).reverse).dropWhile Char.isWhitespace).reverse⟩

/-- Split a character list at every slash; the JavaScript `split('/')`,
which never returns an empty array. -/
def splitSlashAux : List Char → List Char → List (List Char)
  | [], acc => [acc.reverse]
  | c :: cs, acc =>
      if c = '/' then acc.reverse :: splitSlashAux cs []
      else splitSlashAux cs (c :: acc)

/-- The token after the last slash of a string: `url.split('/').pop()`.
Since `splitSlashAux` never returns an empty list, the default of
`getLastD` is never used. -/
def lastSlashToken (url : String) : String :=
  ⟨(splitSlashAux url.data []).getLastD []⟩

/-- JavaScript `Set.add` on a set kept as an insertion-ordered list:
adding a present element is a no-op. -/
def setAdd (s : List String) (x : String) : List String :=
  if x ∈ s then s else s ++ [x]

/-- JavaScript `Set.delete`. -/
def setDelete (s : List String) (x : String) : List String :=
  s.filter (fun y => y != x)

/-- JavaScript `Set.has`. -/
def setHas (s : List String) (x : String) : Bool := decide (x ∈ s)

/-- The spec operation `isBusy(itemId)`: in the components this is the
expression `downloading.has(itemId)`. -/
def isBusy (itemId : String) (downloading : List String) : Bool :=
  setHas downloading itemId

/-- Observable result of one `handleDownload` call: the `downloading` set
after the call returns, the filename handed to `downloadFile` if the
file-save step was reached, whether the payload fetch was issued, and the
text of the `alert` raised, if any. -/
structure DownloadResult where
  downloading : List String
  saved : Option String
  fetched : Bool
  alert : Option String
deriving DecidableEq

/-- Outcome of a single download call, as the spec classifies them.  The
constructor `alreadyInFlight` is part of the vocabulary the specification
uses; whether the code ever produces it is settled by the theorems below. -/
inductive CallOutcome where
  | saved (filename : String)
  | fetchFailed
  | notAvailable
  | alreadyInFlight
deriving DecidableEq

/-- Number of file-save invocations an outcome contributes. -/
def savedCount : CallOutcome → Nat
  | CallOutcome.saved _ => 1
  | _ => 0

/-- Classify a call from whether it proceeded past the availability guard
and whether its payload fetch succeeded. -/
def outcomeOf (proceeded fetchOk : Bool) (filename : String) : CallOutcome :=
  if proceeded then
    (if fetchOk then CallOutcome.saved filename else CallOutcome.fetchFailed)
  else CallOutcome.notAvailable

/-- The state owned by one ResourceCollectionController: the fetched items
and the loading flag (`useState` cells `pdfs`/`videos` and `loading`). -/
structure CollectionState (α : Type) where
  items : List α
  loading : Bool

namespace PDFManager

/-- The filename expression of `PDFManager.handleDownload`, line 35:
`pdf.filename || pdf.url.split('/').pop() || document_(pdf.id).pdf`. -/
def downloadName (pdf : PDF) : String :=
  jsOrOpt pdf.filename
    (jsOr (lastSlashToken pdf.url) ("document_" ++ pdf.id ++ ".pdf"))

/-- One complete, non-overlapping `handleDownload(pdf)` call of
`PDFManager.tsx` lines 26-47.  The guard `if (!pdf.minio_object_name)`
alerts and returns before touching the `downloading` set; otherwise the id
is added, the payload fetch is awaited (`fetchOk` tells how it ends), on
success the blob is handed to `downloadFile`, on failure the catch alerts,
and the `finally` block removes the id. -/
def handleDownload (pdf : PDF) (fetchOk : Bool) (downloading : List String) :
    DownloadResult :=
  if truthy pdf.minio_object_name then
    if fetchOk then
      { downloading := setDelete (setAdd downloading pdf.id) pdf.id
        saved := some (downloadName pdf)
        fetched := true
        alert := none }
    else
      { downloading := setDelete (setAdd downloading pdf.id) pdf.id
        saved := none
        fetched := true
        alert := some "Failed to download PDF" }
  else
    { downloading := downloading
      saved := none
      fetched := false
      alert := some "PDF not available for download" }

/-- First segment of `handleDownload`, up to the suspension at
`await apiService.downloadPDF(...)`: the availability guard and the
addition to the `downloading` set.  Returns the new set and whether the
call proceeded to the fetch. -/
def dlBegin (pdf : PDF) (downloading : List String) : List String × Bool :=
  if truthy pdf.minio_object_name then (setAdd downloading pdf.id, true)
  else (downloading, false)

/-- Second segment of `handleDownload`, after the fetch resolves: the
file-save (or the catch) and the `finally` removal from the set. -/
def dlFinish (pdf : PDF) (fetchOk : Bool) (downloading : List String) :
    List String × Option String :=
  (setDelete downloading pdf.id,
    if fetchOk then some (downloadName pdf) else none)

/-- Two `handleDownload` calls for the same artifact that overlap: the
second call starts while the first is suspended at its payload fetch.
Both begin segments run, then both finish segments (for the same id the
two completion orders produce the same final set, since each removes the
same element).  Returns both call outcomes and the final `downloading`
set. -/
def overlapRun (pdf : PDF) (okA okB : Bool) (downloading : List String) :
    CallOutcome × CallOutcome × List String :=
  let bA := dlBegin pdf downloading
  let bB := dlBegin pdf bA.1
  let s2 := if bA.2 then (dlFinish pdf okA bB.1).1 else bB.1
  let s3 := if bB.2 then (dlFinish pdf okB s2).1 else s2
  (outcomeOf bA.2 okA (downloadName pdf),
   outcomeOf bB.2 okB (downloadName pdf), s3)

/-- The render-level guard of `PDFManager.tsx` line 126:
`disabled=(downloading.has(pdf.id))` on the per-item download button. -/
def buttonDisabled (pdf : PDF) (downloading : List String) : Bool :=
  setHas downloading pdf.id

/-- The `fetchPDFs` body before its suspension point: `setLoading(true)`. -/
def fetchBegin (st : CollectionState PDF) : CollectionState PDF :=
  { items := st.items, loading := true }

/-- The `fetchPDFs` body after `await apiService.getPDFs()` resolves: on
success `setPdfs(data)`, on failure only `console.error` (the error is
swallowed), and in both cases the `finally` block runs
`setLoading(false)`. -/
def fetchFinish (result : Except String (List PDF)) (st : CollectionState PDF) :
    CollectionState PDF :=
  match result with
  | Except.ok data => { items := data, loading := false }
  | Except.error _ => { items := st.items, loading := false }

/-- One complete `fetchPDFs()` call, `PDFManager.tsx` lines 10-20.  The
function is total: a failed list fetch is caught inside and never
propagates past this boundary. -/
def fetchPDFs (result : Except String (List PDF)) (st : CollectionState PDF) :
    CollectionState PDF :=
  fetchFinish result (fetchBegin st)

/-- The sequence of item ids the PDF grid renders, `PDFManager.tsx`
lines 91-165: the empty-state placeholder when the list is empty,
otherwise one card per element of `pdfs` (no truncation). -/
def renderedIds (pdfs : List PDF) : List String :=
  if pdfs.length = 0 then [] else pdfs.map PDF.id

/-- The count shown in the heading `PDFs (pdfs.length)`, line 80. -/
def headingCount (pdfs : List PDF) : Nat := pdfs.length

end PDFManager

namespace VideoManager

/-- The filename expression of `VideoManager.handleDownload`, line 35:
`video.filename || video.url.split('/').pop() || video_(video.id).mp4`. -/
def downloadName (video : Video) : String :=
  jsOrOpt video.filename
    (jsOr (lastSlashToken video.url) ("video_" ++ video.id ++ ".mp4"))

/-- One complete, non-overlapping `handleDownload(video)` call of
`VideoManager.tsx` lines 26-47; same shape as the PDF variant. -/
def handleDownload (video : Video) (fetchOk : Bool) (downloading : List String) :
    DownloadResult :=
  if truthy video.minio_object_name then
    if fetchOk then
      { downloading := setDelete (setAdd downloading video.id) video.id
        saved := some (downloadName video)
        fetched := true
        alert := none }
    else
      { downloading := setDelete (setAdd downloading video.id) video.id
        saved := none
        fetched := true
        alert := some "Failed to download video" }
  else
    { downloading := downloading
      saved := none
      fetched := false
      alert := some "Video not available for download" }

/-- First segment of the video `handleDownload`, up to the suspension at
`await apiService.downloadVideo(...)`. -/
def dlBegin (video : Video) (downloading : List String) : List String × Bool :=
  if truthy video.minio_object_name then (setAdd downloading video.id, true)
  else (downloading, false)

/-- Second segment of the video `handleDownload`, after the fetch resolves:
the file-save (or the catch) and the `finally` removal from the set. -/
def dlFinish (video : Video) (fetchOk : Bool) (downloading : List String) :
    List String × Option String :=
  (setDelete downloading video.id,
    if fetchOk then some (downloadName video) else none)

/-- Two video `handleDownload` calls for the same artifact that overlap:
the second call starts while the first is suspended at its payload fetch;
same shape as the PDF variant. -/
def overlapRun (video : Video) (okA okB : Bool) (downloading : List String) :
    CallOutcome × CallOutcome × List String :=
  let bA := dlBegin video downloading
  let bB := dlBegin video bA.1
  let s2 := if bA.2 then (dlFinish video okA bB.1).1 else bB.1
  let s3 := if bB.2 then (dlFinish video okB s2).1 else s2
  (outcomeOf bA.2 okA (downloadName video),
   outcomeOf bB.2 okB (downloadName video), s3)

/-- The render-level guard of `VideoManager.tsx` line 112:
`disabled=(downloading.has(video.id))` on the per-item download button. -/
def buttonDisabled (video : Video) (downloading : List String) : Bool :=
  setHas downloading video.id

/-- One complete `fetchVideos()` call, `VideoManager.tsx` lines 10-20:
`setLoading(true)`, the awaited list fetch, `setVideos(data)` on success,
a swallowed error on failure, `setLoading(false)` in `finally`. -/
def fetchVideos (result : Except String (List Video)) (st : CollectionState Video) :
    CollectionState Video :=
  match result with
  | Except.ok data => { items := data, loading := false }
  | Except.error _ => { items := st.items, loading := false }

/-- The sequence of item ids the video grid renders, `VideoManager.tsx`
lines 80-151: the empty-state placeholder when the list is empty,
otherwise one card per element of `videos.slice(0, 3)`. -/
def renderedIds (videos : List Video) : List String :=
  if videos.length = 0 then [] else (videos.take 3).map Video.id

/-- The count shown in the heading `Videos (videos.length)`, line 69. -/
def headingCount (videos : List Video) : Nat := videos.length

end VideoManager

/-- Observable result of one `handleSubmit` call of `ScraperInterface.tsx`:
the request transmitted to `apiService.scrapeContent` (if the network call
was issued at all), whether `onScrapeStart()` ran — which is what schedules
the delayed refresh signal — whether the submission succeeded, and the
text of the `alert` raised, if any. -/
structure SubmitResult where
  transmitted : Option ScrapeRequest
  scheduledRefresh : Bool
  success : Bool
  alert : Option String
deriving DecidableEq

namespace ScraperInterface

/-- One `handleSubmit` call, `ScraperInterface.tsx` lines 220-252.
`validUrls`/`validKeywords` keep the entries whose trim is non-empty
(`urls.filter(url => url.trim())` — note the kept entries are the
originals, not their trimmed forms).  If both filtered lists are empty the
handler alerts and returns before any network activity.  Otherwise it calls
`onScrapeStart()` — scheduling the delayed refresh — and only then awaits
`apiService.scrapeContent(request)`, whose outcome is `transportOk`. -/
def handleSubmit (urls keywords : List String) (transportOk : Bool) :
    SubmitResult :=
  if (urls.filter (fun u => jsTrim u != "")).isEmpty &&
      (keywords.filter (fun k => jsTrim k != "")).isEmpty then
    { transmitted := none
      scheduledRefresh := false
      success := false
      alert := some "Please enter at least one URL or keyword" }
  else if transportOk then
    { transmitted := some
        { urls := urls.filter (fun u => jsTrim u != "")
          keywords := keywords.filter (fun k => jsTrim k != "") }
      scheduledRefresh := true
      success := true
      alert := none }
  else
    { transmitted := some
        { urls := urls.filter (fun u => jsTrim u != "")
          keywords := keywords.filter (fun k => jsTrim k != "") }
      scheduledRefresh := true
      success := false
      alert := some "Failed to start scraping. Please try again." }

end ScraperInterface

namespace App

/-- Timer-relevant state of the `App` component (`src/unnamed/part_000`):
whether the splash `setTimeout` of the mount effect is still pending, how
many `setTimeout`s scheduled by `handleScrapeStart` are pending, the
`refreshTrigger` state cell, and whether the component is mounted. -/
structure AppModel where
  splashPending : Bool
  scrapeTimers : Nat
  refreshTrigger : Nat
  mounted : Bool
deriving DecidableEq

/-- `handleScrapeStart` (lines 31-36): schedules one `setTimeout` for a
2-second delay.  The handle is not stored anywhere, and no cleanup is
registered for it. -/
def handleScrapeStart (m : AppModel) : AppModel :=
  { splashPending := m.splashPending
    scrapeTimers := m.scrapeTimers + 1
    refreshTrigger := m.refreshTrigger
    mounted := m.mounted }

/-- Unmounting the `App` component.  The only cleanup the component
registers is the mount effect's `return () => clearTimeout(timer)`, which
clears the splash timer; the timers scheduled by `handleScrapeStart` are
untouched. -/
def teardown (m : AppModel) : AppModel :=
  { splashPending := false
    scrapeTimers := m.scrapeTimers
    refreshTrigger := m.refreshTrigger
    mounted := false }

/-- The 2-second delay elapses: every pending timer callback runs.  Each
scrape-timer callback executes `setRefreshTrigger(prev => prev + 1)`,
which updates the state cell only while the component is mounted (React
drops state updates addressed to an unmounted component). -/
def elapse (m : AppModel) : AppModel :=
  { splashPending := false
    scrapeTimers := 0
    refreshTrigger :=
      if m.mounted then m.refreshTrigger + m.scrapeTimers
      else m.refreshTrigger
    mounted := m.mounted }

end App

/-- Filename resolution policy as the specification words it (section 4.3):
when no explicit filename is present, use the source URL's last path
segment; if that segment is empty, fall back to the deterministic name
`kind_itemId.ext`.  Stated as a second definition, to be compared with the
managers' `downloadName` expressions. -/
def specDownloadName (kind ext id url : String) : String :=
  if lastSlashToken url = "" then kind ++ "_" ++ id ++ "." ++ ext
  else lastSlashToken url

/-! ### Helper lemmas -/

theorem setHas_setAdd_self (s : List String) (x : String) :
    setHas (setAdd s x) x = true := by
  by_cases h : x ∈ s <;> simp [setHas, setAdd, h]

theorem setHas_setDelete_self (s : List String) (x : String) :
    setHas (setDelete s x) x = false := by
  simp [setHas, setDelete, List.mem_filter]

theorem filter_isEmpty_eq_not_any (l : List String) (p : String → Bool) :
    (l.filter p).isEmpty = !(l.any p) := by
  induction l with
  | nil => rfl
  | cons a t ih =>
    cases h : p a
    · simp [List.filter_cons, List.any_cons, h, ih]
    · simp [List.filter_cons, List.any_cons, h]

/-! ### Claim theorems -/

/-- C4: for every artifact whose download reaches the payload fetch (the
storage object key is present), whether the fetch succeeds or fails, the
item id has been removed from the in-flight set by the `finally` block
before the call returns, so `isBusy(id)` is false after the call — in both
manager components. -/
theorem C4_not_busy_after_download :
    (∀ (pdf : PDF) (fetchOk : Bool) (s : List String),
        truthy pdf.minio_object_name = true →
        isBusy pdf.id (PDFManager.handleDownload pdf fetchOk s).downloading = false) ∧
    (∀ (v : Video) (fetchOk : Bool) (s : List String),
        truthy v.minio_object_name = true →
        isBusy v.id (VideoManager.handleDownload v fetchOk s).downloading = false) := by
  constructor
  · intro pdf fetchOk s h
    cases fetchOk <;>
      simp [PDFManager.handleDownload, h, isBusy, setHas_setDelete_self]
  · intro v fetchOk s h
    cases fetchOk <;>
      simp [VideoManager.handleDownload, h, isBusy, setHas_setDelete_self]

theorem C4_not_busy_after_download_witness :
    isBusy "p1"
      (PDFManager.handleDownload ⟨"p1", "https://x.org/a.pdf", none, some "k"⟩
        false ["p1", "q"]).downloading = false :=
  C4_not_busy_after_download.1 ⟨"p1", "https://x.org/a.pdf", none, some "k"⟩
    false ["p1", "q"] (by decide)

/-- C5: in both manager components, a failed list fetch leaves the prior
`items` value unchanged while still clearing `isLoading`; the model
functions are total, mirroring that the catch block swallows the error so
the failure never propagates past the controller boundary. -/
theorem C5_failed_fetch_keeps_items :
    (∀ (st : CollectionState PDF) (e : String),
        (PDFManager.fetchPDFs (Except.error e) st).items = st.items ∧
        (PDFManager.fetchPDFs (Except.error e) st).loading = false) ∧
    (∀ (st : CollectionState Video) (e : String),
        (VideoManager.fetchVideos (Except.error e) st).items = st.items ∧
        (VideoManager.fetchVideos (Except.error e) st).loading = false) :=
  ⟨fun _ _ => ⟨rfl, rfl⟩, fun _ _ => ⟨rfl, rfl⟩⟩

/-- C6: when every URL entry and every keyword entry is blank after
trimming, `handleSubmit` fails locally with the empty-request alert, marks
no success, schedules no refresh, and transmits nothing — so
`apiService.scrapeContent` is never invoked. -/
theorem C6_empty_request_no_network (urls keywords : List String) (tOk : Bool)
    (hu : ∀ u ∈ urls, jsTrim u = "") (hk : ∀ k ∈ keywords, jsTrim k = "") :
    ScraperInterface.handleSubmit urls keywords tOk =
      { transmitted := none
        scheduledRefresh := false
        success := false
        alert := some "Please enter at least one URL or keyword" } := by
  have h1 : urls.filter (fun u => jsTrim u != "") = [] := by
    rw [List.filter_eq_nil_iff]
    intro u hmem
    simp [hu u hmem]
  have h2 : keywords.filter (fun k => jsTrim k != "") = [] := by
    rw [List.filter_eq_nil_iff]
    intro k hmem
    simp [hk k hmem]
  simp [ScraperInterface.handleSubmit, h1, h2]

theorem C6_empty_request_no_network_witness :
    ScraperInterface.handleSubmit [" ", ""] [""] true =
      { transmitted := none
        scheduledRefresh := false
        success := false
        alert := some "Please enter at least one URL or keyword" } :=
  C6_empty_request_no_network [" ", ""] [""] true (by decide) (by decide)

/-- C9: for every artifact without a storage object key, `handleDownload`
returns immediately with the local not-available alert: no payload fetch is
issued, nothing is saved, the in-flight set is untouched (the begin segment
never adds the id), and `isBusy(id)` is unchanged — in both manager
components. -/
theorem C9_unavailable_no_fetch :
    (∀ (pdf : PDF) (fetchOk : Bool) (s : List String),
        truthy pdf.minio_object_name = false →
        PDFManager.handleDownload pdf fetchOk s =
          { downloading := s
            saved := none
            fetched := false
            alert := some "PDF not available for download" } ∧
        PDFManager.dlBegin pdf s = (s, false) ∧
        isBusy pdf.id (PDFManager.handleDownload pdf fetchOk s).downloading =
          isBusy pdf.id s) ∧
    (∀ (v : Video) (fetchOk : Bool) (s : List String),
        truthy v.minio_object_name = false →
        VideoManager.handleDownload v fetchOk s =
          { downloading := s
            saved := none
            fetched := false
            alert := some "Video not available for download" } ∧
        VideoManager.dlBegin v s = (s, false) ∧
        isBusy v.id (VideoManager.handleDownload v fetchOk s).downloading =
          isBusy v.id s) := by
  constructor
  · intro pdf fetchOk s h
    refine ⟨?_, ?_, ?_⟩ <;>
      simp [PDFManager.handleDownload, PDFManager.dlBegin, h]
  · intro v fetchOk s h
    refine ⟨?_, ?_, ?_⟩ <;>
      simp [VideoManager.handleDownload, VideoManager.dlBegin, h]

theorem C9_unavailable_no_fetch_witness :
    PDFManager.handleDownload ⟨"p1", "https://x.org/a.pdf", none, none⟩ true [] =
      { downloading := []
        saved := none
        fetched := false
        alert := some "PDF not available for download" } ∧
    PDFManager.dlBegin ⟨"p1", "https://x.org/a.pdf", none, none⟩ [] = ([], false) ∧
    isBusy "p1"
      (PDFManager.handleDownload ⟨"p1", "https://x.org/a.pdf", none, none⟩
        true []).downloading = isBusy "p1" [] :=
  C9_unavailable_no_fetch.1 ⟨"p1", "https://x.org/a.pdf", none, none⟩ true []
    (by decide)

/-- C10: the media view renders exactly the first `min 3 length` items of
the fetched collection — the displayed sequence is `items.take 3` — while
its heading reports the full list length; the document view renders every
fetched item. -/
theorem C10_media_truncated_documents_not (videos : List Video) (pdfs : List PDF) :
    VideoManager.renderedIds videos = (videos.take 3).map Video.id ∧
    (VideoManager.renderedIds videos).length = min 3 videos.length ∧
    VideoManager.headingCount videos = videos.length ∧
    PDFManager.renderedIds pdfs = pdfs.map PDF.id ∧
    PDFManager.headingCount pdfs = pdfs.length := by
  refine ⟨?_, ?_, rfl, ?_, rfl⟩
  · cases videos <;> simp [VideoManager.renderedIds]
  · cases videos with
    | nil => simp [VideoManager.renderedIds]
    | cons a t =>
        simp [VideoManager.renderedIds, List.length_take]
        omega
  · cases pdfs <;> simp [PDFManager.renderedIds]

/-- C1 counterexample: two overlapping `handleDownload` calls for the same
downloadable artifact, the second invoked while the first awaits its
payload fetch.  Contrary to the claim, the second call is not rejected
with `AlreadyInFlight` — the handler performs no membership check — and
both calls reach the file-save step (two saves, not exactly one). -/
theorem C1_counterexample_second_call_saves :
    (PDFManager.overlapRun ⟨"p1", "https://x.org/a.pdf", none, some "k"⟩
        true true []).1 = CallOutcome.saved "a.pdf" ∧
    (PDFManager.overlapRun ⟨"p1", "https://x.org/a.pdf", none, some "k"⟩
        true true []).2.1 = CallOutcome.saved "a.pdf" ∧
    (PDFManager.overlapRun ⟨"p1", "https://x.org/a.pdf", none, some "k"⟩
        true true []).2.1 ≠ CallOutcome.alreadyInFlight ∧
    savedCount (PDFManager.overlapRun ⟨"p1", "https://x.org/a.pdf", none, some "k"⟩
        true true []).1 +
      savedCount (PDFManager.overlapRun ⟨"p1", "https://x.org/a.pdf", none, some "k"⟩
        true true []).2.1 ≠ 1 := by decide

/-- C1 amended: in both manager components, `handleDownload` itself
performs no in-flight membership check, so two overlapping calls for the
same downloadable artifact both reach the file-save step and neither fails
with `AlreadyInFlight`; the double-submission guard is instead the render
layer, which disables the item's download button exactly while its id is
in the in-flight set — in particular the button is disabled from the
moment the first call's begin segment runs. -/
theorem C1_overlap_both_save :
    (∀ (pdf : PDF) (s : List String),
        truthy pdf.minio_object_name = true →
        (PDFManager.overlapRun pdf true true s).1 =
          CallOutcome.saved (PDFManager.downloadName pdf) ∧
        (PDFManager.overlapRun pdf true true s).2.1 =
          CallOutcome.saved (PDFManager.downloadName pdf) ∧
        PDFManager.buttonDisabled pdf (PDFManager.dlBegin pdf s).1 = true) ∧
    (∀ (v : Video) (s : List String),
        truthy v.minio_object_name = true →
        (VideoManager.overlapRun v true true s).1 =
          CallOutcome.saved (VideoManager.downloadName v) ∧
        (VideoManager.overlapRun v true true s).2.1 =
          CallOutcome.saved (VideoManager.downloadName v) ∧
        VideoManager.buttonDisabled v (VideoManager.dlBegin v s).1 = true) := by
  constructor
  · intro pdf s h
    refine ⟨?_, ?_, ?_⟩ <;>
      simp [PDFManager.overlapRun, PDFManager.dlBegin, PDFManager.buttonDisabled,
        outcomeOf, h, setHas_setAdd_self]
  · intro v s h
    refine ⟨?_, ?_, ?_⟩ <;>
      simp [VideoManager.overlapRun, VideoManager.dlBegin, VideoManager.buttonDisabled,
        outcomeOf, h, setHas_setAdd_self]

theorem C1_overlap_both_save_witness :
    ((PDFManager.overlapRun ⟨"q7", "https://x.org/b.pdf", none, some "obj"⟩
        true true []).1 =
      CallOutcome.saved
        (PDFManager.downloadName ⟨"q7", "https://x.org/b.pdf", none, some "obj"⟩) ∧
    (PDFManager.overlapRun ⟨"q7", "https://x.org/b.pdf", none, some "obj"⟩
        true true []).2.1 =
      CallOutcome.saved
        (PDFManager.downloadName ⟨"q7", "https://x.org/b.pdf", none, some "obj"⟩) ∧
    PDFManager.buttonDisabled ⟨"q7", "https://x.org/b.pdf", none, some "obj"⟩
      (PDFManager.dlBegin ⟨"q7", "https://x.org/b.pdf", none, some "obj"⟩ []).1 = true) ∧
    ((VideoManager.overlapRun ⟨"v3", "https://x.org/c.mp4", none, none, some "obj"⟩
        true true []).1 =
      CallOutcome.saved
        (VideoManager.downloadName ⟨"v3", "https://x.org/c.mp4", none, none, some "obj"⟩) ∧
    (VideoManager.overlapRun ⟨"v3", "https://x.org/c.mp4", none, none, some "obj"⟩
        true true []).2.1 =
      CallOutcome.saved
        (VideoManager.downloadName ⟨"v3", "https://x.org/c.mp4", none, none, some "obj"⟩) ∧
    VideoManager.buttonDisabled ⟨"v3", "https://x.org/c.mp4", none, none, some "obj"⟩
      (VideoManager.dlBegin ⟨"v3", "https://x.org/c.mp4", none, none, some "obj"⟩ []).1 = true) :=
  ⟨C1_overlap_both_save.1 ⟨"q7", "https://x.org/b.pdf", none, some "obj"⟩ [] (by decide),
   C1_overlap_both_save.2 ⟨"v3", "https://x.org/c.mp4", none, none, some "obj"⟩ [] (by decide)⟩

/-- C2 counterexample: a submission that passes local validation but whose
transport call fails still schedules the delayed refresh signal, because
`onScrapeStart()` runs before `await apiService.scrapeContent(...)` — the
claim says a failed submission schedules none. -/
theorem C2_counterexample_failed_submit_schedules :
    (ScraperInterface.handleSubmit ["http://a"] [] false).success = false ∧
    (ScraperInterface.handleSubmit ["http://a"] [] false).scheduledRefresh = true := by
  decide

/-- C2 amended: the delayed refresh signal is scheduled exactly when local
validation passes (some entry is non-blank after trimming), because
`onScrapeStart()` runs before the transport call; a locally rejected
submission schedules no refresh, but a submission that fails at the
transport still schedules one. -/
theorem C2_refresh_scheduled_iff_validation_passes
    (urls keywords : List String) (tOk : Bool) :
    (ScraperInterface.handleSubmit urls keywords tOk).scheduledRefresh =
      (urls.any (fun u => jsTrim u != "") ||
        keywords.any (fun k => jsTrim k != "")) := by
  cases tOk <;>
    cases hu : urls.any (fun u => jsTrim u != "") <;>
      cases hk : keywords.any (fun k => jsTrim k != "") <;>
        simp [ScraperInterface.handleSubmit, filter_isEmpty_eq_not_any, hu, hk]

/-- C3 counterexample: an entry that carries surrounding whitespace but is
non-blank after trimming is transmitted verbatim, not trimmed: the claim
predicts the transmission `urls = ["http://a"]`, but the code transmits
`urls = [" http://a "]`. -/
theorem C3_counterexample_untrimmed_entry :
    (ScraperInterface.handleSubmit [" http://a "] [] true).transmitted =
      some { urls := [" http://a "], keywords := [] } ∧
    (ScraperInterface.handleSubmit [" http://a "] [] true).transmitted ≠
      some { urls := ["http://a"], keywords := [] } ∧
    jsTrim " http://a " = "http://a" := by decide

/-- C3 amended: `handleSubmit` drops the entries that are blank after
trimming but transmits the surviving entries in their original, untrimmed
form: every transmitted request is a sublist of the input preserving
order, every transmitted entry is non-blank after trimming, and every
input entry that is non-blank after trimming is transmitted.  The claim's
concrete example still holds because its surviving entries carry no
surrounding whitespace. -/
theorem C3_blanks_dropped_survivors_untrimmed :
    (∀ (urls keywords : List String) (tOk : Bool) (req : ScrapeRequest),
        (ScraperInterface.handleSubmit urls keywords tOk).transmitted = some req →
          req.urls.Sublist urls ∧ req.keywords.Sublist keywords ∧
          (∀ u ∈ req.urls, jsTrim u ≠ "") ∧ (∀ k ∈ req.keywords, jsTrim k ≠ "") ∧
          (∀ u ∈ urls, jsTrim u ≠ "" → u ∈ req.urls) ∧
          (∀ k ∈ keywords, jsTrim k ≠ "" → k ∈ req.keywords)) ∧
    (ScraperInterface.handleSubmit [" ", "http://a"] [""] true).transmitted =
      some { urls := ["http://a"], keywords := [] } := by
  constructor
  · intro urls keywords tOk req h
    have hreq : req.urls = urls.filter (fun u => jsTrim u != "") ∧
        req.keywords = keywords.filter (fun k => jsTrim k != "") := by
      by_cases hc : ((urls.filter (fun u => jsTrim u != "")).isEmpty &&
          (keywords.filter (fun k => jsTrim k != "")).isEmpty) = true
      · simp [ScraperInterface.handleSubmit, hc] at h
      · cases tOk <;> simp [ScraperInterface.handleSubmit, hc] at h <;>
          simp [h.symm]
    obtain ⟨h1, h2⟩ := hreq
    refine ⟨?_, ?_, ?_, ?_, ?_, ?_⟩
    · rw [h1]; exact List.filter_sublist urls
    · rw [h2]; exact List.filter_sublist keywords
    · intro u hu
      rw [h1] at hu
      simpa using List.of_mem_filter hu
    · intro k hk
      rw [h2] at hk
      simpa using List.of_mem_filter hk
    · intro u hu hne
      rw [h1]
      exact List.mem_filter.mpr ⟨hu, by simpa using hne⟩
    · intro k hk hne
      rw [h2]
      exact List.mem_filter.mpr ⟨hk, by simpa using hne⟩
  · decide

theorem C3_blanks_dropped_survivors_untrimmed_witness :
    (["http://a"] : List String).Sublist [" ", "http://a"] ∧
    ([] : List String).Sublist [""] ∧
    (∀ u ∈ (["http://a"] : List String), jsTrim u ≠ "") ∧
    (∀ k ∈ ([] : List String), jsTrim k ≠ "") ∧
    (∀ u ∈ ([" ", "http://a"] : List String), jsTrim u ≠ "" →
      u ∈ (["http://a"] : List String)) ∧
    (∀ k ∈ ([""] : List String), jsTrim k ≠ "" →
      k ∈ ([] : List String)) :=
  C3_blanks_dropped_survivors_untrimmed.1 [" ", "http://a"] [""] true
    ⟨["http://a"], []⟩ (by decide)

/-- C7 counterexample: after a submission, tearing the `App` component down
before the 2-second delay elapses does not cancel the delayed-refresh
timer — it is still pending (while the splash timer, the only one with a
registered cleanup, is cleared), contradicting the claimed cancellation. -/
theorem C7_counterexample_timer_survives_teardown :
    (App.teardown (App.handleScrapeStart ⟨true, 0, 0, true⟩)).scrapeTimers = 1 ∧
    (App.teardown (App.handleScrapeStart ⟨true, 0, 0, true⟩)).scrapeTimers ≠ 0 ∧
    (App.teardown (App.handleScrapeStart ⟨true, 0, 0, true⟩)).splashPending = false := by
  decide

/-- C7 amended: the delayed-refresh timer is never cancelled — no cleanup
is registered for it, so it survives teardown and still fires after the
delay.  While the view stays mounted, one submission yields exactly one
refresh-trigger increment (one refresh per keyed controller); if the view
was torn down first, the fired callback's state update is dropped, so the
trigger does not change. -/
theorem C7_timer_uncancelled_one_trigger (m : App.AppModel)
    (h0 : m.scrapeTimers = 0) (hm : m.mounted = true) :
    (App.teardown (App.handleScrapeStart m)).scrapeTimers = 1 ∧
    (App.elapse (App.handleScrapeStart m)).refreshTrigger = m.refreshTrigger + 1 ∧
    (App.elapse (App.teardown (App.handleScrapeStart m))).refreshTrigger =
      m.refreshTrigger := by
  refine ⟨?_, ?_, ?_⟩ <;>
    simp [App.teardown, App.handleScrapeStart, App.elapse, h0, hm]

theorem C7_timer_uncancelled_one_trigger_witness :
    (App.teardown (App.handleScrapeStart ⟨false, 0, 5, true⟩)).scrapeTimers = 1 ∧
    (App.elapse (App.handleScrapeStart ⟨false, 0, 5, true⟩)).refreshTrigger = 5 + 1 ∧
    (App.elapse (App.teardown (App.handleScrapeStart ⟨false, 0, 5, true⟩))).refreshTrigger = 5 :=
  C7_timer_uncancelled_one_trigger ⟨false, 0, 5, true⟩ rfl rfl

/-- C8: for every artifact with no explicit filename, the name handed to
the file-save step is the token after the last slash of the source URL,
with the deterministic fallback `kind_itemId.ext` when that token is
empty — the managers' filename expressions agree with the specification's
resolution policy, and the two concrete examples of the claim download as
`report.pdf` and `document_42.pdf` respectively. -/
theorem C8_filename_resolution :
    (∀ pdf : PDF, pdf.filename = none →
        PDFManager.downloadName pdf =
          specDownloadName "document" "pdf" pdf.id pdf.url) ∧
    (∀ v : Video, v.filename = none →
        VideoManager.downloadName v =
          specDownloadName "video" "mp4" v.id v.url) ∧
    (PDFManager.handleDownload ⟨"42", "https://x.org/report.pdf", none, some "k"⟩
        true []).saved = some "report.pdf" ∧
    (PDFManager.handleDownload ⟨"42", "https://x.org/", none, some "k"⟩
        true []).saved = some "document_42.pdf" := by
  refine ⟨?_, ?_, by decide, by decide⟩
  · intro pdf hf
    by_cases hseg : lastSlashToken pdf.url = "" <;>
      simp [PDFManager.downloadName, specDownloadName, jsOrOpt, jsOr, hf, hseg,
        String.append_assoc]
  · intro v hf
    by_cases hseg : lastSlashToken v.url = "" <;>
      simp [VideoManager.downloadName, specDownloadName, jsOrOpt, jsOr, hf, hseg,
        String.append_assoc]

theorem C8_filename_resolution_witness :
    PDFManager.downloadName ⟨"7", "https://x.org/", none, some "k"⟩ =
      specDownloadName "document" "pdf" "7" "https://x.org/" :=
  C8_filename_resolution.1 ⟨"7", "https://x.org/", none, some "k"⟩ rfl

end WebScrapper
